import Mathlib

/-!
# Medical Clinic Management System — verification of the clinical workflow core

Shallow embedding of the backend's data model and of the operations named by the
claims, translated from the JavaScript sources:

* `backend/src/models/Appointment.js`, `packages/backend/src/models/Consultation.js`,
  `src/models/Prescription.js` (Mongoose schemas): record types, enum statuses,
  required-field and unique-index behaviour.
* `packages/backend/src/controllers/appointmentController.js` (the role-aware
  controller imported by `appointmentRoutes.js`, which the server mounts):
  `getAllAppointments`, `createAppointment`, `updateAppointment`, `deleteAppointment`.
* `backend/src/controllers/consultationController.js`: `createConsultation`.
* `packages/backend/src/controllers/prescriptionController.js`:
  `createPrescription`, `updatePrescription`.
* `src/middleware/auth.js` (bundled in `backend/src/models/Secretary.js`):
  `authenticate`, `authorize`.
* `src/config/jwt.js` (bundled in `patientService.js`): `verifyToken`.
* `src/utils/helpers.js`: `getPaginationParams`.

Conventions: Mongo ObjectIds and dates are modelled as `Nat`; absent JSON fields
are `Option.none` (JS `undefined`); a falsy-string check (`!diagnosis`) treats the
empty string like absence.  Display-only fields filled by `populate` (patient and
doctor names, emails, phone numbers, specialities) are not referenced by any
claim and are omitted from the embedded records.  Each controller returns a
`Resp` (HTTP status, message, and — for schema validation failures — the index of
the offending embedded medication entry, standing for the `medications.<i>.<field>`
path of a Mongoose `ValidationError`) together with the post-state of the store.
-/

namespace Clinic

/-- User roles, from the `User` schema (`role` enum) and the route files. -/
inductive Role where
  | admin
  | doctor
  | secretary
  | patient
deriving DecidableEq, Repr, BEq

/-- Appointment status enum, `backend/src/models/Appointment.js` lines 28-32. -/
inductive AppStatus where
  | pending
  | confirmed
  | cancelled
  | completed
deriving DecidableEq, Repr, BEq

/-- Consultation status enum, `packages/backend/src/models/Consultation.js`. -/
inductive ConsStatus where
  | inProgress
  | completed
  | cancelled
deriving DecidableEq, Repr, BEq

/-- Prescription status enum, `Prescription.js`. -/
inductive PrescStatus where
  | draft
  | issued
  | completed
deriving DecidableEq, Repr, BEq

/-- Authenticated account (`User` model): `_id` and `role`;
`req.user` as attached by the `authenticate` middleware. -/
structure User where
  id : Nat
  role : Role
deriving DecidableEq, Repr

/-- Patient profile (`Patient.js`): `_id` and the `userId` back-reference used by
the ownership lookup `Patient.findOne({ userId })`. -/
structure Patient where
  id : Nat
  userId : Nat
deriving DecidableEq, Repr

/-- Doctor profile (`Doctor.js`): only `_id` is consulted by the embedded operations. -/
structure Doctor where
  id : Nat
deriving DecidableEq, Repr

/-- Appointment document, `backend/src/models/Appointment.js`. -/
structure Appointment where
  id : Nat
  patientId : Nat
  doctorId : Nat
  dateTime : Nat
  reason : Option String
  status : AppStatus
  notes : Option String
deriving DecidableEq, Repr

/-- Consultation document, `packages/backend/src/models/Consultation.js`.
`appointmentId` carries a `unique: true` index. -/
structure Consultation where
  id : Nat
  appointmentId : Nat
  patientId : Nat
  doctorId : Nat
  dateTime : Nat
  diagnosis : String
  treatment : Option String
  notes : Option String
  status : ConsStatus
deriving DecidableEq, Repr

/-- Embedded medication line, `prescriptionMedicationSchema` in `Prescription.js`:
`medicationId`, `medicationName`, `dosage`, `frequency` are required (the string
fields are trimmed, so a whitespace-only value fails `required`); `duration` and
`notes` are optional. -/
structure MedEntry where
  medicationId : Option Nat
  medicationName : Option String
  dosage : Option String
  frequency : Option String
  duration : Option String
  notes : Option String
deriving DecidableEq, Repr

/-- Prescription document, `Prescription.js`. -/
structure Prescription where
  id : Nat
  consultationId : Nat
  patientId : Nat
  doctorId : Nat
  medications : List MedEntry
  notes : Option String
  status : PrescStatus
deriving DecidableEq, Repr

/-- The persistent store: one collection per model. -/
structure DB where
  patients : List Patient
  doctors : List Doctor
  appointments : List Appointment
  consultations : List Consultation
  prescriptions : List Prescription
deriving DecidableEq, Repr

/-- HTTP response as observed by the client: status code, `message` field, and
for Mongoose validation failures the index of the offending `medications` entry
(standing for the `medications.<i>.<field>` error path). -/
structure Resp where
  status : Nat
  message : String
  errIndex : Option Nat
deriving DecidableEq, Repr

/-- JS truthiness of an optional string (`!s` is true for `undefined` and `""`). -/
def strTruthy : Option String → Bool
  | none => false
  | some s => !(s == "")

/-- `String.trim` modelled on the character list (drop whitespace on both ends). -/
def strTrim (s : String) : String :=
  ⟨((s.data.dropWhile Char.isWhitespace).reverse.dropWhile Char.isWhitespace).reverse⟩

/-- A required trimmed string field fails `required` when absent or blank. -/
def blankStr : Option String → Bool
  | none => true
  | some s => strTrim s == ""

/-- `getPaginationParams` from `src/utils/helpers.js`: returns `(skip, limit)`;
`page` is clamped below by 1, `limit` to `[1, 100]`. -/
def getPaginationParams (page limit : Nat) : Nat × Nat :=
  let pageNum := max 1 page
  let limitNum := min 100 (max 1 limit)
  ((pageNum - 1) * limitNum, limitNum)

/-- Insert into a list sorted by ascending `dateTime` (helper for the default
`sort({ dateTime: 1 })` of the appointment list query). -/
def insertByDateTime (a : Appointment) : List Appointment → List Appointment
  | [] => [a]
  | b :: bs => if a.dateTime ≤ b.dateTime then a :: b :: bs else b :: insertByDateTime a bs

/-- Stable sort by ascending `dateTime` (`sort({ dateTime: 1 })`). -/
def sortByDateTime : List Appointment → List Appointment
  | [] => []
  | a :: as => insertByDateTime a (sortByDateTime as)

/-- The formatted appointment rows returned by the appointment controllers
(display names filled by `populate` are omitted — no claim reads them). -/
structure FormattedAppointment where
  id : Nat
  patientId : Nat
  doctorId : Nat
  dateTime : Nat
  reason : Option String
  status : AppStatus
  notes : Option String
deriving DecidableEq, Repr

/-- The `formattedAppointments.map` projection of `getAllAppointments`. -/
def formatAppointment (a : Appointment) : FormattedAppointment :=
  ⟨a.id, a.patientId, a.doctorId, a.dateTime, a.reason, a.status, a.notes⟩

/-- `getAllAppointments` (`appointmentController.js` lines 11-54, identical in both
controller copies): builds `query = {}` — optionally restricted by the `status`
query parameter, but never by the requesting user — then
`find(query).sort({dateTime:1}).skip(skip).limit(limit)` and formats the rows.
The authenticated caller (`req.user`) is *not consulted*. -/
def getAllAppointments (db : DB) (page limit : Nat) (statusFilter : Option AppStatus) :
    List FormattedAppointment :=
  let pg := getPaginationParams page limit
  let query := fun (a : Appointment) =>
    match statusFilter with
    | some s => a.status == s
    | none => true
  (((sortByDateTime (db.appointments.filter query)).drop pg.1).take pg.2).map formatAppointment

/-- `IdentityResolver` for the patient role: `Patient.findOne({ userId: user._id })`. -/
def ownPatient (db : DB) (u : User) : Option Patient :=
  db.patients.find? (fun p => p.userId == u.id)

/-- Request body of `POST /appointments`. -/
structure CreateApptReq where
  patientId : Option Nat
  doctorId : Option Nat
  dateTime : Option Nat
  reason : Option String
  status : Option AppStatus
  notes : Option String
deriving DecidableEq, Repr

/-- The patient-role restrictions of `createAppointment`
(`packages/backend/src/controllers/appointmentController.js` lines 99-116):
a patient may only book for their own resolved Patient profile (403 otherwise),
and a supplied status other than `pending` is rejected with 400. -/
def patientCreateGuard (u : User) (r : CreateApptReq) (db : DB) : Option Resp :=
  if u.role = Role.patient then
    match ownPatient db u with
    | none => some ⟨403, "Patients can only book appointments for themselves", none⟩
    | some pu =>
      if r.patientId ≠ some pu.id then
        some ⟨403, "Patients can only book appointments for themselves", none⟩
      else
        match r.status with
        | some s =>
          if s ≠ AppStatus.pending then
            some ⟨400, "Patient appointments must have status pending", none⟩
          else none
        | none => none
  else none

/-- `createAppointment` (`packages/backend/src/controllers/appointmentController.js`
lines 87-164): required-field check, patient-role guard, existence check of the
referenced Patient and Doctor (`Promise.all` of two `findById`s, one combined 404
when either is absent), then insert with
`status = role == patient ? pending : (status || pending)`.
`fresh` stands for the Mongo-generated `_id` of the new document. -/
def createAppointment (u : User) (r : CreateApptReq) (fresh : Nat) (db : DB) : Resp × DB :=
  match r.patientId, r.doctorId, r.dateTime with
  | some pid, some did, some dt =>
    (match patientCreateGuard u r db with
     | some resp => (resp, db)
     | none =>
       match db.patients.find? (fun p => p.id == pid), db.doctors.find? (fun d => d.id == did) with
       | some _, some _ =>
         let st := if u.role = Role.patient then AppStatus.pending
                   else r.status.getD AppStatus.pending
         let appt : Appointment := ⟨fresh, pid, did, dt, r.reason, st, r.notes⟩
         (⟨201, "Appointment created successfully", none⟩,
          { db with appointments := appt :: db.appointments })
       | _, _ => (⟨404, "Patient or Doctor not found", none⟩, db))
  | _, _, _ => (⟨400, "PatientId, doctorId, and dateTime are required", none⟩, db)

/-- Request body of `PUT /appointments/:id`; absent fields are left unchanged
(the controller deletes `undefined` keys from `updateData`). -/
structure UpdateApptReq where
  patientId : Option Nat
  doctorId : Option Nat
  dateTime : Option Nat
  reason : Option String
  status : Option AppStatus
  notes : Option String
deriving DecidableEq, Repr

/-- Field-wise patch applied by `findByIdAndUpdate(id, updateData)`. -/
def applyApptPatch (r : UpdateApptReq) (a : Appointment) : Appointment :=
  { a with
    patientId := r.patientId.getD a.patientId
    doctorId := r.doctorId.getD a.doctorId
    dateTime := r.dateTime.getD a.dateTime
    reason := match r.reason with | some s => some s | none => a.reason
    status := r.status.getD a.status
    notes := match r.notes with | some s => some s | none => a.notes }

/-- `updateAppointment` (`packages/backend/src/controllers/appointmentController.js`
lines 166-214): patients are rejected outright with 403; otherwise
`findByIdAndUpdate` patches the defined fields (404 when the id is absent).
The supplied `status` is applied as-is — no lifecycle transition check exists. -/
def updateAppointment (u : User) (id : Nat) (r : UpdateApptReq) (db : DB) : Resp × DB :=
  if u.role = Role.patient then
    (⟨403, "Patients cannot modify appointments. Please contact support.", none⟩, db)
  else
    match db.appointments.find? (fun a => a.id == id) with
    | none => (⟨404, "Appointment not found", none⟩, db)
    | some _ =>
      (⟨200, "Appointment updated successfully", none⟩,
       { db with appointments :=
           db.appointments.map (fun a => if a.id == id then applyApptPatch r a else a) })

/-- `deleteAppointment` (`packages/backend/src/controllers/appointmentController.js`
lines 216-240): patients are rejected with 403; otherwise `findByIdAndDelete`. -/
def deleteAppointment (u : User) (id : Nat) (db : DB) : Resp × DB :=
  if u.role = Role.patient then
    (⟨403, "Patients cannot delete appointments", none⟩, db)
  else
    match db.appointments.find? (fun a => a.id == id) with
    | none => (⟨404, "Appointment not found", none⟩, db)
    | some _ =>
      (⟨200, "Appointment deleted successfully", none⟩,
       { db with appointments := db.appointments.filter (fun a => !(a.id == id)) })

/-- Display string of a role (used in the `authorize` denial message). -/
def roleToString : Role → String
  | Role.admin => "admin"
  | Role.doctor => "doctor"
  | Role.secretary => "secretary"
  | Role.patient => "patient"

/-- `authorize(...roles)` middleware (`src/middleware/auth.js` lines 109-127):
403 when the authenticated user's role is not in the allowed list. -/
def authorize (allowed : List Role) (u : User) : Option Resp :=
  if allowed.contains u.role then none
  else
    some ⟨403,
      "Access denied. Required roles: " ++ String.intercalate ", " (allowed.map roleToString)
        ++ ". Your role: " ++ roleToString u.role, none⟩

/-- `PUT /appointments/:id` route (`appointmentRoutes.js`):
`authorize('admin', 'secretary')` then `updateAppointment`. -/
def putAppointmentRoute (u : User) (id : Nat) (r : UpdateApptReq) (db : DB) : Resp × DB :=
  match authorize [Role.admin, Role.secretary] u with
  | some resp => (resp, db)
  | none => updateAppointment u id r db

/-- `DELETE /appointments/:id` route (`appointmentRoutes.js`):
`authorize('admin', 'secretary')` then `deleteAppointment`. -/
def deleteAppointmentRoute (u : User) (id : Nat) (db : DB) : Resp × DB :=
  match authorize [Role.admin, Role.secretary] u with
  | some resp => (resp, db)
  | none => deleteAppointment u id db

/-- Modelled from the spec: the global error handler
(`src/middleware/errorHandler.js` is referenced by the server entrypoint but is
not among the sources).  Per §6/§7 it maps a storage unique-constraint rejection
to `ConflictError` with HTTP 409. -/
def duplicateKeyResp : Resp := ⟨409, "ConflictError: duplicate key", none⟩

/-- Modelled from the spec: the global error handler
(`src/middleware/errorHandler.js`, not among the sources) maps a Mongoose
`ValidationError` to HTTP 400, surfacing the validator message; for an embedded
`medications` entry the error path carries the entry's index (`idx`). -/
def validationResp (idx : Option Nat) (msg : String) : Resp := ⟨400, msg, idx⟩

/-- Request body of `POST /consultations`. -/
structure CreateConsReq where
  appointmentId : Option Nat
  patientId : Option Nat
  doctorId : Option Nat
  dateTime : Option Nat
  diagnosis : Option String
  treatment : Option String
  notes : Option String
  status : Option ConsStatus
deriving DecidableEq, Repr

/-- `createConsultation` (`backend/src/controllers/consultationController.js`
lines 92-147): required-field check (`!appointmentId || !patientId || !doctorId
|| !diagnosis`, one combined 400), `Appointment.findById` (404 when absent), then
`Consultation.create`.  The store's unique index on `appointmentId`
(`Consultation.js` lines 10-15, `unique: true`) atomically rejects a duplicate
insert; the rejection surfaces through the error handler as 409 (see
`duplicateKeyResp`).  There is no check-then-insert in the controller: the insert
itself is the conflict point, so concurrent creations are serialized by the
store. `fresh` stands for the Mongo-generated `_id`. -/
def createConsultation (r : CreateConsReq) (fresh : Nat) (db : DB) : Resp × DB :=
  match r.appointmentId, r.patientId, r.doctorId with
  | some aid, some pid, some did =>
    if !strTruthy r.diagnosis then
      (⟨400, "appointmentId, patientId, doctorId, and diagnosis are required", none⟩, db)
    else
      match db.appointments.find? (fun a => a.id == aid) with
      | none => (⟨404, "Appointment not found", none⟩, db)
      | some appt =>
        if db.consultations.any (fun c => c.appointmentId == aid) then
          (duplicateKeyResp, db)
        else
          let c : Consultation :=
            ⟨fresh, aid, pid, did, r.dateTime.getD appt.dateTime, r.diagnosis.getD "",
             r.treatment, r.notes, r.status.getD ConsStatus.inProgress⟩
          (⟨201, "Consultation created successfully", none⟩,
           { db with consultations := c :: db.consultations })
  | _, _, _ =>
    (⟨400, "appointmentId, patientId, doctorId, and diagnosis are required", none⟩, db)

/-- Number of Consultation records referencing appointment `aid`. -/
def consCount (db : DB) (aid : Nat) : Nat :=
  (db.consultations.filter (fun c => c.appointmentId == aid)).length

/-- First failing required field of one embedded medication entry, in schema
order (`prescriptionMedicationSchema`): `medicationId`, `medicationName`,
`dosage` (message `Dosage is required`), `frequency` (`Frequency is required`). -/
def medEntryError (m : MedEntry) : Option String :=
  if m.medicationId.isNone then some "medicationId is required"
  else if blankStr m.medicationName then some "medicationName is required"
  else if blankStr m.dosage then some "Dosage is required"
  else if blankStr m.frequency then some "Frequency is required"
  else none

/-- Index and message of the first invalid entry of a `medications` list
(the Mongoose `ValidationError` path `medications.<i>.<field>`). -/
def medsFirstError : List MedEntry → Option (Nat × String)
  | [] => none
  | m :: rest =>
    match medEntryError m with
    | some msg => some (0, msg)
    | none => (medsFirstError rest).map (fun p => (p.1 + 1, p.2))

/-- Request body of `POST /prescriptions`. -/
structure CreatePrescReq where
  consultationId : Option Nat
  patientId : Option Nat
  doctorId : Option Nat
  medications : Option (List MedEntry)
  notes : Option String
  status : Option PrescStatus
deriving DecidableEq, Repr

/-- `createPrescription` (`packages/backend/src/controllers/prescriptionController.js`
lines 97-130): the only controller-side validation is
`!consultationId || !patientId || !doctorId || !medications || medications.length === 0`
(one combined 400); then `Prescription.create` runs the schema validation of the
embedded medication entries (rejected through the error handler as 400,
see `validationResp`) and inserts.  Note: the referenced Consultation's
existence is *never looked up*. `fresh` stands for the Mongo-generated `_id`. -/
def createPrescription (r : CreatePrescReq) (fresh : Nat) (db : DB) : Resp × DB :=
  match r.consultationId, r.patientId, r.doctorId, r.medications with
  | some cid, some pid, some did, some meds =>
    if meds.length == 0 then
      (⟨400, "consultationId, patientId, doctorId, and at least one medication are required",
        none⟩, db)
    else
      match medsFirstError meds with
      | some e => (validationResp (some e.1) e.2, db)
      | none =>
        let p : Prescription := ⟨fresh, cid, pid, did, meds, r.notes,
                                 r.status.getD PrescStatus.draft⟩
        (⟨201, "Prescription created successfully", none⟩,
         { db with prescriptions := p :: db.prescriptions })
  | _, _, _, _ =>
    (⟨400, "consultationId, patientId, doctorId, and at least one medication are required",
      none⟩, db)

/-- Request body of `PUT /prescriptions/:id`; absent fields are left unchanged. -/
structure UpdatePrescReq where
  consultationId : Option Nat
  patientId : Option Nat
  doctorId : Option Nat
  medications : Option (List MedEntry)
  notes : Option String
  status : Option PrescStatus
deriving DecidableEq, Repr

/-- Field-wise patch applied by `findByIdAndUpdate(id, updateData)` on a
Prescription (the `medications` array is replaced wholesale). -/
def applyPrescPatch (r : UpdatePrescReq) (p : Prescription) : Prescription :=
  { p with
    consultationId := r.consultationId.getD p.consultationId
    patientId := r.patientId.getD p.patientId
    doctorId := r.doctorId.getD p.doctorId
    medications := r.medications.getD p.medications
    notes := match r.notes with | some s => some s | none => p.notes
    status := r.status.getD p.status }

/-- The `findByIdAndUpdate` step of `updatePrescription` after validation. -/
def updatePrescApply (id : Nat) (r : UpdatePrescReq) (db : DB) : Resp × DB :=
  match db.prescriptions.find? (fun p => p.id == id) with
  | none => (⟨404, "Prescription not found", none⟩, db)
  | some _ =>
    (⟨200, "Prescription updated successfully", none⟩,
     { db with prescriptions :=
         db.prescriptions.map (fun p => if p.id == id then applyPrescPatch r p else p) })

/-- `updatePrescription` (`packages/backend/src/controllers/prescriptionController.js`
lines 132-163): builds `updateData` from the defined fields and runs
`findByIdAndUpdate(..., { runValidators: true })`.  When `medications` is being
set, the update validators run first: the schema's non-empty array validator
(`At least one medication is required`) and the per-entry required fields; a
failure rejects the update (400 through the error handler) before the store is
touched. -/
def updatePrescription (id : Nat) (r : UpdatePrescReq) (db : DB) : Resp × DB :=
  match r.medications with
  | some meds =>
    if meds.length == 0 then
      (validationResp none "At least one medication is required", db)
    else
      match medsFirstError meds with
      | some e => (validationResp (some e.1) e.2, db)
      | none => updatePrescApply id r db
  | none => updatePrescApply id r db

/-- Payload of a verified JWT (`generateToken` signs `{ id, role }`). -/
structure JwtClaims where
  id : Nat
  role : Role
deriving DecidableEq, Repr

/-- Failure modes of the external `jsonwebtoken.verify` call. -/
inductive JwtErr where
  | expired
  | invalidSignature
  | malformed
deriving DecidableEq, Repr

/-- The `message` of the error thrown by `jsonwebtoken.verify`
(`TokenExpiredError` carries `jwt expired`). -/
def jwtErrMessage : JwtErr → String
  | JwtErr.expired => "jwt expired"
  | JwtErr.invalidSignature => "invalid signature"
  | JwtErr.malformed => "jwt malformed"

/-- `verifyToken` (`src/config/jwt.js`, bundled in `patientService.js` lines
83-89): wraps `jwt.verify` and rethrows *every* failure as
`new Error('Invalid token')`, discarding the original message.  The behaviour of
the external verifier is a parameter `ver`. -/
def verifyToken (ver : String → Except JwtErr JwtClaims) (t : String) :
    Except String JwtClaims :=
  match ver t with
  | Except.ok c => Except.ok c
  | Except.error _ => Except.error "Invalid token"

/-- `pre.isPrefixOf s` on the character lists: model of `String.startsWith`. -/
def strStartsWith (s pre : String) : Bool :=
  pre.data.isPrefixOf s.data

/-- `s.substring(n)` modelled on the character list. -/
def strDrop (s : String) (n : Nat) : String := ⟨s.data.drop n⟩

/-- Outcome of the `authenticate` middleware: either the request proceeds with
`req.user` attached, or a response is sent and the handler never runs. -/
inductive AuthResult where
  | ok (u : User)
  | denied (status : Nat) (message : String)
deriving DecidableEq, Repr

/-- `authenticate` middleware (`src/middleware/auth.js` lines 63-102, bundled in
`backend/src/models/Secretary.js`): requires an `Authorization: Bearer <token>`
header (401 otherwise), calls `verifyToken`, 401s with `Token has expired` when
the caught error message is exactly `jwt expired` and with
`Invalid token: <message>` otherwise, then loads the user by the decoded id
(401 `User not found` when absent) and attaches it. -/
def authenticate (ver : String → Except JwtErr JwtClaims) (users : List User)
    (authHeader : Option String) : AuthResult :=
  match authHeader with
  | none => AuthResult.denied 401 "No token provided. Please provide a valid JWT token."
  | some h =>
    if !strStartsWith h "Bearer " then
      AuthResult.denied 401 "No token provided. Please provide a valid JWT token."
    else
      match verifyToken ver (strDrop h 7) with
      | Except.error e =>
        if e == "jwt expired" then AuthResult.denied 401 "Token has expired"
        else AuthResult.denied 401 ("Invalid token: " ++ e)
      | Except.ok claims =>
        match users.find? (fun u => u.id == claims.id) with
        | none => AuthResult.denied 401 "User not found"
        | some u => AuthResult.ok u

/-- A protected route: the handler runs — and can touch the store — only when
`authenticate` succeeds; otherwise its 401 response is sent and the store is
untouched. -/
def protectedRoute (ver : String → Except JwtErr JwtClaims) (users : List User)
    (authHeader : Option String) (handler : User → DB → Resp × DB) (db : DB) : Resp × DB :=
  match authenticate ver users authHeader with
  | AuthResult.ok u => handler u db
  | AuthResult.denied st msg => (⟨st, msg, none⟩, db)

/-! ## Concrete stores used to evaluate the operations -/

/-- An authenticated caller with role `patient` (account id 10). -/
def c1user : User := ⟨10, Role.patient⟩

/-- A store with two patients (profile 1 owned by account 10, profile 2 by
account 20), one doctor, and one appointment of each patient. -/
def c1db : DB :=
  ⟨[⟨1, 10⟩, ⟨2, 20⟩], [⟨5⟩],
   [⟨100, 1, 5, 50, none, AppStatus.pending, none⟩,
    ⟨101, 2, 5, 60, none, AppStatus.confirmed, none⟩],
   [], []⟩

/-! ## Claims -/

/-- C1: the claim says a patient caller's appointment list contains only
appointments whose `patientId` equals the caller's own resolved Patient id.
Evaluating `getAllAppointments` — which builds `query = {}` and never consults
`req.user` — for patient account 10 (own Patient id 1) on a store that also
holds patient 2's appointment: the other patient's appointment (`patientId = 2`)
appears in the returned data, contradicting the claim (and the route file's own
access-matrix comment "Patients: own appointments"). -/
theorem getAllAppointments_leaks_other_patients_appointments :
    c1user.role = Role.patient ∧
    ownPatient c1db c1user = some ⟨1, 10⟩ ∧
    (⟨101, 2, 5, 60, none, AppStatus.confirmed, none⟩ : FormattedAppointment) ∈
      getAllAppointments c1db 1 10 none ∧
    (getAllAppointments c1db 1 10 none).any (fun f => !(f.patientId == 1)) = true := by
  decide

/-- C6: update and delete on an Appointment go through
`authorize('admin','secretary')`: a doctor or patient caller is denied with 403
and the store is unchanged, and a 200 can only be observed when the caller's
role is secretary or admin. -/
theorem appointment_update_delete_secretary_admin_only :
    ∀ (u : User) (id : Nat) (r : UpdateApptReq) (db : DB),
    ((u.role = Role.doctor ∨ u.role = Role.patient) →
      (putAppointmentRoute u id r db).1.status = 403 ∧
      (putAppointmentRoute u id r db).2 = db ∧
      (deleteAppointmentRoute u id db).1.status = 403 ∧
      (deleteAppointmentRoute u id db).2 = db) ∧
    ((putAppointmentRoute u id r db).1.status = 200 →
      u.role = Role.secretary ∨ u.role = Role.admin) ∧
    ((deleteAppointmentRoute u id db).1.status = 200 →
      u.role = Role.secretary ∨ u.role = Role.admin) := by
  intro u id r db
  obtain ⟨uid, urole⟩ := u
  cases urole
  case admin =>
    exact ⟨fun h => by rcases h with h | h <;> exact Role.noConfusion h,
           fun _ => Or.inr rfl, fun _ => Or.inr rfl⟩
  case doctor =>
    refine ⟨fun _ => ⟨rfl, rfl, rfl, rfl⟩, fun h => ?_, fun h => ?_⟩
    · have h' : (403 : Nat) = 200 := h
      omega
    · have h' : (403 : Nat) = 200 := h
      omega
  case secretary =>
    exact ⟨fun h => by rcases h with h | h <;> exact Role.noConfusion h,
           fun _ => Or.inl rfl, fun _ => Or.inl rfl⟩
  case patient =>
    refine ⟨fun _ => ⟨rfl, rfl, rfl, rfl⟩, fun h => ?_, fun h => ?_⟩
    · have h' : (403 : Nat) = 200 := h
      omega
    · have h' : (403 : Nat) = 200 := h
      omega

/-- Witness for C6: a concrete doctor is denied with 403 on both routes and the
store is unchanged. -/
theorem appointment_update_delete_secretary_admin_only_witness :
    (putAppointmentRoute ⟨4, Role.doctor⟩ 100 ⟨none, none, none, none, none, none⟩ c1db).1.status
        = 403 ∧
    (putAppointmentRoute ⟨4, Role.doctor⟩ 100 ⟨none, none, none, none, none, none⟩ c1db).2
        = c1db ∧
    (deleteAppointmentRoute ⟨4, Role.doctor⟩ 100 c1db).1.status = 403 ∧
    (deleteAppointmentRoute ⟨4, Role.doctor⟩ 100 c1db).2 = c1db :=
  (appointment_update_delete_secretary_admin_only
    ⟨4, Role.doctor⟩ 100 ⟨none, none, none, none, none, none⟩ c1db).1 (Or.inl rfl)

/-- C9: a protected request with a missing header, a header not starting with
`Bearer `, or a token the verifier rejects (bad signature or expired) is
answered 401 and the handler never runs (the store is untouched); when
verification succeeds and the decoded user exists, the handler runs with that
user. -/
theorem authenticate_gates_protected_requests :
    (∀ (ver : String → Except JwtErr JwtClaims) (users : List User)
       (handler : User → DB → Resp × DB) (db : DB),
       protectedRoute ver users none handler db =
         (⟨401, "No token provided. Please provide a valid JWT token.", none⟩, db)) ∧
    (∀ (ver : String → Except JwtErr JwtClaims) (users : List User) (h : String)
       (handler : User → DB → Resp × DB) (db : DB),
       strStartsWith h "Bearer " = false →
       protectedRoute ver users (some h) handler db =
         (⟨401, "No token provided. Please provide a valid JWT token.", none⟩, db)) ∧
    (∀ (ver : String → Except JwtErr JwtClaims) (users : List User) (h : String)
       (e : JwtErr) (handler : User → DB → Resp × DB) (db : DB),
       strStartsWith h "Bearer " = true → ver (strDrop h 7) = Except.error e →
       (protectedRoute ver users (some h) handler db).1.status = 401 ∧
       (protectedRoute ver users (some h) handler db).2 = db) ∧
    (∀ (ver : String → Except JwtErr JwtClaims) (users : List User) (h : String)
       (c : JwtClaims) (u : User) (handler : User → DB → Resp × DB) (db : DB),
       strStartsWith h "Bearer " = true → ver (strDrop h 7) = Except.ok c →
       users.find? (fun x => x.id == c.id) = some u →
       protectedRoute ver users (some h) handler db = handler u db) := by
  refine ⟨?_, ?_, ?_, ?_⟩
  · intro ver users handler db
    simp [protectedRoute, authenticate]
  · intro ver users h handler db hpre
    simp [protectedRoute, authenticate, hpre]
  · intro ver users h e handler db hpre hver
    have hne : (("Invalid token" : String) == "jwt expired") = false := by decide
    simp [protectedRoute, authenticate, verifyToken, hpre, hver, hne]
  · intro ver users h c u handler db hpre hver hfind
    simp [protectedRoute, authenticate, verifyToken, hpre, hver, hfind]

/-- Witness for C9: each branch of the gate evaluated at a concrete request.
The concrete verifier rejects every token as expired in the failure cases and
accepts with the claims of user 1 in the success case. -/
theorem authenticate_gates_protected_requests_witness :
    (protectedRoute (fun _ => Except.error JwtErr.expired) [⟨1, Role.admin⟩] none
        (fun _ db => (⟨200, "ok", none⟩, db)) c1db =
      (⟨401, "No token provided. Please provide a valid JWT token.", none⟩, c1db)) ∧
    (protectedRoute (fun _ => Except.error JwtErr.expired) [⟨1, Role.admin⟩] (some "token")
        (fun _ db => (⟨200, "ok", none⟩, db)) c1db =
      (⟨401, "No token provided. Please provide a valid JWT token.", none⟩, c1db)) ∧
    ((protectedRoute (fun _ => Except.error JwtErr.expired) [⟨1, Role.admin⟩]
        (some "Bearer t") (fun _ db => (⟨200, "ok", none⟩, db)) c1db).1.status = 401 ∧
     (protectedRoute (fun _ => Except.error JwtErr.expired) [⟨1, Role.admin⟩]
        (some "Bearer t") (fun _ db => (⟨200, "ok", none⟩, db)) c1db).2 = c1db) ∧
    (protectedRoute (fun _ => Except.ok (⟨1, Role.admin⟩ : JwtClaims)) [⟨1, Role.admin⟩]
        (some "Bearer t") (fun _ db => (⟨200, "ok", none⟩, db)) c1db =
      (⟨200, "ok", none⟩, c1db)) :=
  ⟨authenticate_gates_protected_requests.1 _ _ _ _,
   authenticate_gates_protected_requests.2.1 _ _ "token" _ _ (by decide),
   authenticate_gates_protected_requests.2.2.1 _ _ "Bearer t" JwtErr.expired _ _
     (by decide) rfl,
   authenticate_gates_protected_requests.2.2.2 _ _ "Bearer t" ⟨1, Role.admin⟩
     ⟨1, Role.admin⟩ _ _ (by decide) rfl (by decide)⟩

/-- C10: `verifyToken` rethrows every verification failure — expiry included —
as a generic `Error('Invalid token')`, so the `error.message === 'jwt expired'`
branch of `authenticate` (the 401 `Token has expired` response) can never be
taken: every failing token yields the generic `Invalid token: ...` 401. -/
theorem authenticate_expired_branch_unreachable :
    ∀ (ver : String → Except JwtErr JwtClaims) (users : List User) (h : String) (e : JwtErr),
    strStartsWith h "Bearer " = true → ver (strDrop h 7) = Except.error e →
    authenticate ver users (some h) =
      AuthResult.denied 401 "Invalid token: Invalid token" ∧
    authenticate ver users (some h) ≠ AuthResult.denied 401 "Token has expired" := by
  intro ver users h e hpre hver
  have hne : (("Invalid token" : String) == "jwt expired") = false := by decide
  constructor
  · simp [authenticate, verifyToken, hpre, hver, hne]
  · simp [authenticate, verifyToken, hpre, hver, hne]

/-- Witness for C10: a verifier that rejects the token precisely as expired
(`jwt expired`) still produces the generic `Invalid token: ...` response. -/
theorem authenticate_expired_branch_unreachable_witness :
    authenticate (fun _ => Except.error JwtErr.expired) [] (some "Bearer t") =
      AuthResult.denied 401 "Invalid token: Invalid token" ∧
    authenticate (fun _ => Except.error JwtErr.expired) [] (some "Bearer t") ≠
      AuthResult.denied 401 "Token has expired" :=
  authenticate_expired_branch_unreachable (fun _ => Except.error JwtErr.expired) []
    "Bearer t" JwtErr.expired (by decide) rfl

/-- C2: whenever a caller with role `patient` creates an appointment, the
persisted appointment's status is `pending` — every appointment present after
`createAppointment` was either already stored or carries status `pending`
(a patient-supplied non-`pending` status is rejected with 400 before the
insert, and the stored status is computed as
`role === 'patient' ? 'pending' : (status || 'pending')`). -/
theorem createAppointment_patient_persisted_status_pending :
    ∀ (u : User) (r : CreateApptReq) (fresh : Nat) (db : DB) (a : Appointment),
    u.role = Role.patient →
    a ∈ (createAppointment u r fresh db).2.appointments →
    a ∈ db.appointments ∨ a.status = AppStatus.pending := by
  intro u r fresh db a hrole hmem
  unfold createAppointment at hmem
  repeat' split at hmem
  all_goals
    first
      | exact Or.inl hmem
      | (simp only [List.mem_cons] at hmem
         rcases hmem with rfl | hmem
         · exact Or.inr (by simp [hrole])
         · exact Or.inl hmem)

/-- A store holding the patient profile of account 20 and one doctor. -/
def c2db : DB := ⟨[⟨1, 20⟩], [⟨5⟩], [], [], []⟩

/-- Witness for C2: the concrete appointment created by patient account 20
is persisted with status `pending`. -/
theorem createAppointment_patient_persisted_status_pending_witness :
    (⟨200, 1, 5, 70, none, AppStatus.pending, none⟩ : Appointment) ∈ c2db.appointments ∨
    (⟨200, 1, 5, 70, none, AppStatus.pending, none⟩ : Appointment).status =
      AppStatus.pending :=
  createAppointment_patient_persisted_status_pending ⟨20, Role.patient⟩
    ⟨some 1, some 5, some 70, none, none, none⟩ 200 c2db
    ⟨200, 1, 5, 70, none, AppStatus.pending, none⟩ rfl (by decide)

/-- A store holding one appointment whose status is `completed`. -/
def c7db : DB := ⟨[], [], [⟨1, 1, 2, 50, none, AppStatus.completed, none⟩], [], []⟩

/-- An update request supplying only `status: pending`. -/
def c7req : UpdateApptReq := ⟨none, none, none, none, some AppStatus.pending, none⟩

/-- C7 counterexample: the claim says `completed` is terminal, yet a secretary's
`PUT` with `{status: "pending"}` on a completed appointment succeeds (200) and
rewinds the status to `pending` — no transition discipline exists in the code
(`findByIdAndUpdate` applies any enum value). -/
theorem updateAppointment_completed_not_terminal :
    (c7db.appointments.find? (fun a => a.id == 1)).map Appointment.status =
      some AppStatus.completed ∧
    (putAppointmentRoute ⟨3, Role.secretary⟩ 1 c7req c7db).1.status = 200 ∧
    ((putAppointmentRoute ⟨3, Role.secretary⟩ 1 c7req c7db).2.appointments.find?
        (fun a => a.id == 1)).map Appointment.status = some AppStatus.pending := by
  decide

/-- C7 as amended: `updateAppointment` (reached through
`authorize('admin','secretary')`) applies any supplied enum status regardless of
the appointment's current status; `completed` and `cancelled` are not terminal
and no transition order is enforced — the only lifecycle constraint is
membership in the status enum. -/
theorem updateAppointment_sets_any_status :
    ∀ (u : User) (id : Nat) (r : UpdateApptReq) (db : DB) (s : AppStatus),
    (u.role = Role.admin ∨ u.role = Role.secretary) →
    (db.appointments.find? (fun a => a.id == id)).isSome = true →
    r.status = some s →
    (putAppointmentRoute u id r db).1.status = 200 ∧
    ∀ a ∈ (putAppointmentRoute u id r db).2.appointments, a.id = id → a.status = s := by
  intro u id r db s hrole hfound hs
  obtain ⟨uid, urole⟩ := u
  have hroute : putAppointmentRoute ⟨uid, urole⟩ id r db = updateAppointment ⟨uid, urole⟩ id r db ∧
      urole ≠ Role.patient := by
    rcases hrole with h | h <;> simp only at h <;> subst h <;> exact ⟨rfl, by decide⟩
  rw [hroute.1]
  unfold updateAppointment
  rw [if_neg (by simpa using hroute.2)]
  rcases hf : db.appointments.find? (fun a => a.id == id) with _ | a0
  · rw [hf] at hfound
    simp at hfound
  · rw [hf]
    refine ⟨rfl, ?_⟩
    intro a ha haid
    simp only [List.mem_map] at ha
    obtain ⟨x, hx, rfl⟩ := ha
    by_cases hxid : (x.id == id) = true
    · simp only [hxid, if_true, applyApptPatch, hs, Option.getD_some]
    · simp only [hxid] at haid ⊢
      rw [if_neg (by simp [hxid])] at haid ⊢
      exact absurd (by simp [haid]) hxid

/-- Witness for C7's amended theorem: the secretary's update of the completed
appointment yields 200 and every stored appointment with id 1 now has status
`pending`. -/
theorem updateAppointment_sets_any_status_witness :
    (putAppointmentRoute ⟨3, Role.secretary⟩ 1 c7req c7db).1.status = 200 ∧
    ∀ a ∈ (putAppointmentRoute ⟨3, Role.secretary⟩ 1 c7req c7db).2.appointments,
      a.id = 1 → a.status = AppStatus.pending :=
  updateAppointment_sets_any_status ⟨3, Role.secretary⟩ 1 c7req c7db AppStatus.pending
    (Or.inr rfl) (by decide) rfl

/-- A store in which the referenced Patient exists but the Doctor does not. -/
def c8dbA : DB := ⟨[⟨1, 10⟩], [], [], [], []⟩

/-- A store in which the referenced Doctor exists but the Patient does not. -/
def c8dbB : DB := ⟨[], [⟨2⟩], [], [], []⟩

/-- The creation request referencing patient 1 and doctor 2. -/
def c8req : CreateApptReq := ⟨some 1, some 2, some 50, none, none, none⟩

/-- C8 counterexample: the claim says the 404 message names which of the two
references is missing, but the code performs one combined check
(`if (!patient || !doctor)`) with the single message
`Patient or Doctor not found`: a missing doctor and a missing patient produce
the identical message, so the message cannot name the missing reference. -/
theorem createAppointment_notfound_message_not_distinguishing :
    (createAppointment ⟨3, Role.secretary⟩ c8req 7 c8dbA).1 =
      ⟨404, "Patient or Doctor not found", none⟩ ∧
    (createAppointment ⟨3, Role.secretary⟩ c8req 7 c8dbB).1 =
      ⟨404, "Patient or Doctor not found", none⟩ ∧
    (createAppointment ⟨3, Role.secretary⟩ c8req 7 c8dbA).1.message =
      (createAppointment ⟨3, Role.secretary⟩ c8req 7 c8dbB).1.message ∧
    (createAppointment ⟨3, Role.secretary⟩ c8req 7 c8dbA).2 = c8dbA ∧
    (createAppointment ⟨3, Role.secretary⟩ c8req 7 c8dbB).2 = c8dbB := by
  decide

/-- C8 as amended: when the referenced Patient profile or Doctor profile does
not exist, `createAppointment` fails with 404 and the single fixed message
`Patient or Doctor not found` — which does not distinguish the missing
reference — and no Appointment is persisted. -/
theorem createAppointment_missing_reference_404 :
    ∀ (u : User) (r : CreateApptReq) (fresh : Nat) (db : DB) (pid did dt : Nat),
    r.patientId = some pid → r.doctorId = some did → r.dateTime = some dt →
    patientCreateGuard u r db = none →
    (db.patients.find? (fun p => p.id == pid) = none ∨
     db.doctors.find? (fun d => d.id == did) = none) →
    createAppointment u r fresh db = (⟨404, "Patient or Doctor not found", none⟩, db) := by
  intro u r fresh db pid did dt hp hd ht hg hmiss
  rcases hmiss with h | h
  · rcases hfd : db.doctors.find? (fun d => d.id == did) with _ | d <;>
      simp [createAppointment, hp, hd, ht, hg, h, hfd]
  · rcases hfp : db.patients.find? (fun p => p.id == pid) with _ | p <;>
      simp [createAppointment, hp, hd, ht, hg, h, hfp]

/-- Witness for C8's amended theorem: a secretary's creation referencing the
existing patient 1 and the non-existent doctor 2 fails with the fixed 404 and
leaves the store unchanged. -/
theorem createAppointment_missing_reference_404_witness :
    createAppointment ⟨3, Role.secretary⟩ c8req 7 c8dbA =
      (⟨404, "Patient or Doctor not found", none⟩, c8dbA) :=
  createAppointment_missing_reference_404 ⟨3, Role.secretary⟩ c8req 7 c8dbA 1 2 50
    rfl rfl rfl (by decide) (Or.inr (by decide))

/-- C3: uniqueness of `appointmentId` across Consultations.  First conjunct: a
creation naming an `appointmentId` already referenced by a stored Consultation
fails with 409 (the unique index rejects the insert, surfaced as
`ConflictError`) and inserts nothing.  Second conjunct: two valid creations for
the same `appointmentId` against a store with no Consultation for it — the only
store mutation in `createConsultation` is the single atomic insert, so any
interleaving of the two requests is equivalent to some ordering of their
inserts, and the ordering is quantified over (`r1`/`r2` arbitrary): the first
insert succeeds with 201, the second receives 409, and exactly one Consultation
for that `appointmentId` is stored. -/
theorem createConsultation_appointmentId_unique :
    (∀ (r : CreateConsReq) (fresh : Nat) (db : DB) (aid : Nat),
       r.appointmentId = some aid →
       r.patientId.isSome = true → r.doctorId.isSome = true →
       strTruthy r.diagnosis = true →
       (db.appointments.find? (fun a => a.id == aid)).isSome = true →
       db.consultations.any (fun c => c.appointmentId == aid) = true →
       (createConsultation r fresh db).1.status = 409 ∧
       (createConsultation r fresh db).2 = db) ∧
    (∀ (r1 r2 : CreateConsReq) (i1 i2 : Nat) (db : DB) (aid : Nat),
       r1.appointmentId = some aid → r2.appointmentId = some aid →
       r1.patientId.isSome = true → r1.doctorId.isSome = true →
       strTruthy r1.diagnosis = true →
       r2.patientId.isSome = true → r2.doctorId.isSome = true →
       strTruthy r2.diagnosis = true →
       (db.appointments.find? (fun a => a.id == aid)).isSome = true →
       db.consultations.any (fun c => c.appointmentId == aid) = false →
       (createConsultation r1 i1 db).1.status = 201 ∧
       (createConsultation r2 i2 (createConsultation r1 i1 db).2).1.status = 409 ∧
       consCount (createConsultation r2 i2 (createConsultation r1 i1 db).2).2 aid = 1) := by
  constructor
  · intro r fresh db aid ha hp hd hdg hap hdup
    rcases hp2 : r.patientId with _ | pid
    · rw [hp2] at hp; simp at hp
    rcases hd2 : r.doctorId with _ | did
    · rw [hd2] at hd; simp at hd
    rcases hap2 : db.appointments.find? (fun a => a.id == aid) with _ | appt
    · rw [hap2] at hap; simp at hap
    constructor <;>
      simp [createConsultation, ha, hp2, hd2, hdg, hap2, hdup, duplicateKeyResp]
  · intro r1 r2 i1 i2 db aid ha1 ha2 hp1 hd1 hdg1 hp2 hd2 hdg2 hap hdup
    rcases hp1' : r1.patientId with _ | pid1
    · rw [hp1'] at hp1; simp at hp1
    rcases hd1' : r1.doctorId with _ | did1
    · rw [hd1'] at hd1; simp at hd1
    rcases hp2' : r2.patientId with _ | pid2
    · rw [hp2'] at hp2; simp at hp2
    rcases hd2' : r2.doctorId with _ | did2
    · rw [hd2'] at hd2; simp at hd2
    rcases hap2 : db.appointments.find? (fun a => a.id == aid) with _ | appt
    · rw [hap2] at hap; simp at hap
    have hnil : db.consultations.filter (fun c => c.appointmentId == aid) = [] := by
      rw [List.filter_eq_nil_iff]
      intro c hc
      rw [List.any_eq_false] at hdup
      exact hdup c hc
    refine ⟨?_, ?_, ?_⟩ <;>
      simp [createConsultation, consCount, ha1, ha2, hp1', hd1', hdg1, hp2', hd2', hdg2,
        hap2, hdup, duplicateKeyResp, hnil]

/-- A store holding appointment 1 and an existing Consultation referencing it. -/
def c3db : DB :=
  ⟨[], [], [⟨1, 1, 2, 50, none, AppStatus.confirmed, none⟩],
   [⟨9, 1, 1, 2, 50, "flu", none, none, ConsStatus.completed⟩], []⟩

/-- A store holding appointment 1 and no Consultation. -/
def c3db0 : DB :=
  ⟨[], [], [⟨1, 1, 2, 50, none, AppStatus.confirmed, none⟩], [], []⟩

/-- A valid consultation-creation request against appointment 1. -/
def c3req : CreateConsReq := ⟨some 1, some 1, some 2, none, some "flu", none, none, none⟩

/-- Witness for C3: the duplicate creation against `c3db` gets 409 with nothing
inserted, and the two competing creations against `c3db0` end with one 201, one
409, and exactly one stored Consultation for appointment 1. -/
theorem createConsultation_appointmentId_unique_witness :
    ((createConsultation c3req 10 c3db).1.status = 409 ∧
     (createConsultation c3req 10 c3db).2 = c3db) ∧
    ((createConsultation c3req 11 c3db0).1.status = 201 ∧
     (createConsultation c3req 12 (createConsultation c3req 11 c3db0).2).1.status = 409 ∧
     consCount (createConsultation c3req 12 (createConsultation c3req 11 c3db0).2).2 1 = 1) :=
  ⟨createConsultation_appointmentId_unique.1 c3req 10 c3db 1 rfl (by decide) (by decide)
     (by decide) (by decide) (by decide),
   createConsultation_appointmentId_unique.2 c3req c3req 11 12 c3db0 1 rfl rfl (by decide)
     (by decide) (by decide) (by decide) (by decide) (by decide) (by decide) (by decide)⟩

/-- A valid medication line. -/
def c4med : MedEntry := ⟨some 11, some "Ibuprofen", some "400mg", some "Twice daily", none, none⟩

/-- A prescription-creation request naming consultation 99. -/
def c4req : CreatePrescReq := ⟨some 99, some 1, some 2, some [c4med], none, none⟩

/-- An empty store: consultation 99 does not exist. -/
def c4db : DB := ⟨[], [], [], [], []⟩

/-- C4 counterexample: the claim says a `createPrescription` whose
`consultationId` references no existing Consultation fails with 404 and
persists nothing; evaluating the code on an empty store, the call succeeds with
201 and the Prescription referencing the non-existent consultation 99 is
persisted — the controller never looks the Consultation up. -/
theorem createPrescription_dangling_consultation_persisted :
    (createPrescription c4req 7 c4db).1.status = 201 ∧
    (⟨7, 99, 1, 2, [c4med], none, PrescStatus.draft⟩ : Prescription) ∈
      (createPrescription c4req 7 c4db).2.prescriptions ∧
    c4db.consultations.all (fun c => !(c.id == 99)) = true := by
  decide

/-- C4 as amended: `createPrescription` performs no existence check on
`consultationId`: any request with the required fields present and a valid
non-empty `medications` list succeeds with 201 and persists the Prescription,
for every store — in particular stores holding no such Consultation. -/
theorem createPrescription_no_consultation_existence_check :
    ∀ (r : CreatePrescReq) (fresh : Nat) (db : DB) (cid pid did : Nat)
      (meds : List MedEntry),
    r.consultationId = some cid → r.patientId = some pid → r.doctorId = some did →
    r.medications = some meds → meds ≠ [] → medsFirstError meds = none →
    (createPrescription r fresh db).1.status = 201 ∧
    (⟨fresh, cid, pid, did, meds, r.notes, r.status.getD PrescStatus.draft⟩ : Prescription) ∈
      (createPrescription r fresh db).2.prescriptions := by
  intro r fresh db cid pid did meds hc hp hd hm hne hval
  have hlen : (meds.length == 0) = false := by
    cases meds
    · exact absurd rfl hne
    · rfl
  constructor <;> simp [createPrescription, hc, hp, hd, hm, hlen, hval]

/-- Witness for C4's amended theorem: the concrete dangling-reference request
succeeds and is persisted. -/
theorem createPrescription_no_consultation_existence_check_witness :
    (createPrescription c4req 7 c4db).1.status = 201 ∧
    (⟨7, 99, 1, 2, [c4med], none, PrescStatus.draft⟩ : Prescription) ∈
      (createPrescription c4req 7 c4db).2.prescriptions :=
  createPrescription_no_consultation_existence_check c4req 7 c4db 99 1 2 [c4med]
    rfl rfl rfl rfl (by decide) rfl

/-- The first schema error of a `medications` list made of valid entries
followed by an invalid one is reported at the invalid entry's index. -/
theorem medsFirstError_append (good : List MedEntry) (m : MedEntry) (rest : List MedEntry)
    (msg : String) (hgood : ∀ x ∈ good, medEntryError x = none)
    (hm : medEntryError m = some msg) :
    medsFirstError (good ++ m :: rest) = some (good.length, msg) := by
  induction good with
  | nil => simp [medsFirstError, hm]
  | cons g gs ih =>
    have hg : medEntryError g = none := hgood g (by simp)
    have ih' := ih (fun x hx => hgood x (by simp [hx]))
    simp [medsFirstError, hg, ih']

/-- C5: for both `createPrescription` and `updatePrescription`, an empty
`medications` list is rejected with 400 and the store is unchanged; and a list
whose first invalid entry (valid entries before it) is missing `dosage` is
rejected with the Mongoose message `Dosage is required` at that entry's index
(the `medications.<i>.dosage` error path), leaving the store unchanged. -/
theorem prescription_medications_validation :
    (∀ (r : CreatePrescReq) (fresh : Nat) (db : DB),
       r.medications = some [] →
       (createPrescription r fresh db).1.status = 400 ∧
       (createPrescription r fresh db).2 = db) ∧
    (∀ (id : Nat) (r : UpdatePrescReq) (db : DB),
       r.medications = some [] →
       (updatePrescription id r db).1.status = 400 ∧
       (updatePrescription id r db).2 = db) ∧
    (∀ (r : CreatePrescReq) (fresh : Nat) (db : DB) (cid pid did : Nat)
       (good : List MedEntry) (m : MedEntry) (rest : List MedEntry),
       r.consultationId = some cid → r.patientId = some pid → r.doctorId = some did →
       r.medications = some (good ++ m :: rest) →
       (∀ x ∈ good, medEntryError x = none) →
       m.medicationId.isNone = false → blankStr m.medicationName = false →
       blankStr m.dosage = true →
       (createPrescription r fresh db).1 =
         validationResp (some good.length) "Dosage is required" ∧
       (createPrescription r fresh db).2 = db) ∧
    (∀ (id : Nat) (r : UpdatePrescReq) (db : DB)
       (good : List MedEntry) (m : MedEntry) (rest : List MedEntry),
       r.medications = some (good ++ m :: rest) →
       (∀ x ∈ good, medEntryError x = none) →
       m.medicationId.isNone = false → blankStr m.medicationName = false →
       blankStr m.dosage = true →
       (updatePrescription id r db).1 =
         validationResp (some good.length) "Dosage is required" ∧
       (updatePrescription id r db).2 = db) := by
  refine ⟨?_, ?_, ?_, ?_⟩
  · intro r fresh db hm
    rcases hc : r.consultationId with _ | cid <;>
      rcases hp : r.patientId with _ | pid <;>
      rcases hd : r.doctorId with _ | did <;>
      simp [createPrescription, hm, hc, hp, hd]
  · intro id r db hm
    constructor <;> simp [updatePrescription, hm, validationResp]
  · intro r fresh db cid pid did good m rest hc hp hd hm hgood h1 h2 h3
    have hentry : medEntryError m = some "Dosage is required" := by
      simp [medEntryError, h1, h2, h3]
    have hfirst := medsFirstError_append good m rest "Dosage is required" hgood hentry
    have hlen : ((good ++ m :: rest).length == 0) = false := by simp
    constructor <;> simp [createPrescription, hc, hp, hd, hm, hlen, hfirst, validationResp]
  · intro id r db good m rest hm hgood h1 h2 h3
    have hentry : medEntryError m = some "Dosage is required" := by
      simp [medEntryError, h1, h2, h3]
    have hfirst := medsFirstError_append good m rest "Dosage is required" hgood hentry
    have hlen : ((good ++ m :: rest).length == 0) = false := by simp
    constructor <;> simp [updatePrescription, hm, hlen, hfirst, validationResp]

/-- A medication entry whose `dosage` is missing (other required fields set). -/
def c5badMed : MedEntry := ⟨some 12, some "Aspirin", none, some "Once daily", none, none⟩

/-- Witness for C5: the empty list is rejected on create and update, and a list
`[valid, missing-dosage]` is rejected identifying entry 1 on create and update,
each leaving the empty store unchanged. -/
theorem prescription_medications_validation_witness :
    ((createPrescription ⟨some 99, some 1, some 2, some [], none, none⟩ 7 c4db).1.status = 400 ∧
     (createPrescription ⟨some 99, some 1, some 2, some [], none, none⟩ 7 c4db).2 = c4db) ∧
    ((updatePrescription 7 ⟨none, none, none, some [], none, none⟩ c4db).1.status = 400 ∧
     (updatePrescription 7 ⟨none, none, none, some [], none, none⟩ c4db).2 = c4db) ∧
    ((createPrescription ⟨some 99, some 1, some 2, some [c4med, c5badMed], none, none⟩ 7
        c4db).1 = validationResp (some 1) "Dosage is required" ∧
     (createPrescription ⟨some 99, some 1, some 2, some [c4med, c5badMed], none, none⟩ 7
        c4db).2 = c4db) ∧
    ((updatePrescription 7 ⟨none, none, none, some [c4med, c5badMed], none, none⟩ c4db).1 =
       validationResp (some 1) "Dosage is required" ∧
     (updatePrescription 7 ⟨none, none, none, some [c4med, c5badMed], none, none⟩ c4db).2 =
       c4db) :=
  ⟨prescription_medications_validation.1 ⟨some 99, some 1, some 2, some [], none, none⟩ 7
     c4db rfl,
   prescription_medications_validation.2.1 7 ⟨none, none, none, some [], none, none⟩ c4db rfl,
   prescription_medications_validation.2.2.1 ⟨some 99, some 1, some 2,
     some [c4med, c5badMed], none, none⟩ 7 c4db 99 1 2 [c4med] c5badMed [] rfl rfl rfl
     (by decide) (by decide) rfl rfl rfl,
   prescription_medications_validation.2.2.2 7 ⟨none, none, none,
     some [c4med, c5badMed], none, none⟩ c4db [c4med] c5badMed [] (by decide) (by decide)
     rfl rfl rfl⟩

end Clinic
